import Mathlib

/-!
Shallow embedding of the Game Boy PPU module (`src/ppu.rs`): the timing
state machine (`PPU::run`), the memory-mapped register file and the VRAM
gate (`PPU::read_byte` / `PPU::write_byte`), together with theorems
checking the design document's claims against it.

Machine integers are modelled as `Nat` with explicit wrapping (`% 2^32`
for the `u32` clock accumulator, `% 256` for the `u8` scanline counter)
where the Rust code can wrap.  The `unreachable!` panic in `write_byte`
is modelled by returning `none`.
-/

namespace GB

/-- The four PPU phases (`enum Mode` in the source; `AccessOAM` is OAM scan,
`AccessVRAM` is pixel transfer). -/
inductive Mode where
  | HBlank
  | VBlank
  | AccessOAM
  | AccessVRAM
deriving DecidableEq, Repr

/-- `VRAM_SIZE = 8 * 1024` from the source. -/
def VRAM_SIZE : Nat := 8 * 1024

/-- `SCREEN_HEIGHT = 144` from the source. -/
def SCREEN_HEIGHT : Nat := 144

/-- `2^32`, the modulus of the `u32` clock accumulator. -/
def U32 : Nat := 2 ^ 32

/-- PPU state (`struct PPU`).  The 8 KiB VRAM buffer is a function from
index to byte; all byte/word registers are `Nat` carrying their `u8`/`u32`
values. -/
structure PPU where
  vram : Nat → Nat
  mode : Mode
  bgp : Nat
  clocks : Nat
  ly : Nat
  stat : Nat
  scy : Nat
  scx : Nat
  control : Nat

/-- `PPU::new()`: zeroed VRAM, mode `HBlank`, all registers 0. -/
def PPU.new : PPU :=
  { vram := fun _ => 0, mode := .HBlank, bgp := 0, clocks := 0, ly := 0,
    stat := 0, scy := 0, scx := 0, control := 0 }

/-- `PPU::run(tick)` from the source: add `tick` to `clocks` (u32,
wrapping) and then step the current phase at most once. -/
def PPU.run (p : PPU) (tick : Nat) : PPU :=
  let q := { p with clocks := (p.clocks + tick) % U32 }
  match q.mode with
  | .AccessOAM =>
      if 80 ≤ q.clocks then
        { q with clocks := q.clocks - 80, mode := .AccessVRAM }
      else q
  | .AccessVRAM =>
      if 172 ≤ q.clocks then
        { q with clocks := q.clocks - 172, mode := .HBlank }
      else q
  | .HBlank =>
      if 204 ≤ q.clocks then
        let ly := (q.ly + 1) % 256
        { q with clocks := q.clocks - 204, ly := ly,
                 mode := if SCREEN_HEIGHT ≤ ly then .VBlank else .AccessOAM }
      else q
  | .VBlank =>
      if 456 ≤ q.clocks then
        let ly := (q.ly + 1) % 256
        if SCREEN_HEIGHT + 10 ≤ ly then
          { q with clocks := q.clocks - 456, ly := 0, mode := .AccessOAM }
        else
          { q with clocks := q.clocks - 456, ly := ly }
      else q

/-- `PPU::read_byte(addr)` from the source. -/
def PPU.read_byte (p : PPU) (addr : Nat) : Nat :=
  if 0x8000 ≤ addr ∧ addr ≤ 0x9fff then
    if p.mode = .AccessVRAM then 0xff
    else p.vram (addr &&& (VRAM_SIZE - 1))
  else if addr = 0xff40 then p.control
  else if addr = 0xff42 then p.scy
  else if addr = 0xff43 then p.scx
  else if addr = 0xff44 then p.ly
  else if addr = 0xff47 then p.bgp
  else 0xff

/-- `bits.contains(flag)` of the `bitflags` crate for a single-bit flag:
all the flag's bits are present. -/
def containsFlag (bits flag : Nat) : Bool := bits &&& flag = flag

/-- `PPU::write_byte(addr, v)` from the source.  The default arm is
`unreachable!` (a panic), modelled as `none`.  `Control::from_bits_truncate`
keeps the low 8 bits (every bit of `Control` is defined). -/
def PPU.write_byte (p : PPU) (addr v : Nat) : Option PPU :=
  if 0x8000 ≤ addr ∧ addr ≤ 0x9fff then
    if p.mode = .AccessVRAM then some p
    else some { p with vram := fun i =>
                  if i = (addr &&& (VRAM_SIZE - 1)) then v else p.vram i }
  else if addr = 0xff40 then
    let val := v &&& 0xff
    if containsFlag p.control 0x80 ≠ containsFlag val 0x80 then
      let modeBits := if containsFlag val 0x80 then 2 else 0
      some { p with ly := 0, clocks := 0, stat := p.stat ||| modeBits,
                    control := val }
    else some { p with control := val }
  else if addr = 0xff42 then some { p with scy := v }
  else if addr = 0xff43 then some { p with scx := v }
  else if addr = 0xff44 then some p
  else if addr = 0xff47 then some { p with bgp := v }
  else none

/-- Apply `run` for each delta of a list in order. -/
def PPU.ticks (p : PPU) (ds : List Nat) : PPU := ds.foldl PPU.run p

/-- The STAT mode-code encoding of a phase, from the source's `Stat`
constants: `HBLANK_MODE = 0`, `VBLANK_MODE = 1`, `ACCESS_OAM_MODE = 2`,
`ACCESS_VRAM_MODE = 3`. -/
def Mode.statBits : Mode → Nat
  | .HBlank => 0
  | .VBlank => 1
  | .AccessOAM => 2
  | .AccessVRAM => 3

/-- The dot-clock budget of each phase (spec §4.1 phase table). -/
def Mode.budget : Mode → Nat
  | .AccessOAM => 80
  | .AccessVRAM => 172
  | .HBlank => 204
  | .VBlank => 456

/-- The between-ticks invariants of spec §3: `ly < 154`,
`mode == VBlank` iff `ly >= 144`, the STAT mode bits reflect `mode`,
and `clocks` is under the current phase's budget. -/
def PPUInvariant (p : PPU) : Prop :=
  p.ly < 154 ∧ (p.mode = .VBlank ↔ 144 ≤ p.ly) ∧
    p.stat &&& 3 = p.mode.statBits ∧ p.clocks < p.mode.budget

instance (p : PPU) : Decidable (PPUInvariant p) := by
  unfold PPUInvariant; infer_instance

/-- The per-call stepping behaviour as the specification words it (claim C1):
first add `delta` to `clocks` (u32 addition), then step the current phase
once — OamScan subtracts 80 into PixelTransfer at 80; PixelTransfer
subtracts 172 into HBlank at 172; HBlank subtracts 204, increments `ly`
(8-bit wrap) and picks VBlank iff the new `ly ≥ 144`; VBlank subtracts
456, increments `ly` and rolls over to OamScan with `ly = 0` at 154.
The `ly` update precedes the mode decision that depends on it. -/
def runSpecStep (p : PPU) (delta : Nat) : PPU :=
  let c := (p.clocks + delta) % U32
  match p.mode with
  | .AccessOAM =>
      if 80 ≤ c then { p with clocks := c - 80, mode := .AccessVRAM }
      else { p with clocks := c }
  | .AccessVRAM =>
      if 172 ≤ c then { p with clocks := c - 172, mode := .HBlank }
      else { p with clocks := c }
  | .HBlank =>
      if 204 ≤ c then
        let newLy := (p.ly + 1) % 256
        { p with clocks := c - 204, ly := newLy,
                 mode := if 144 ≤ newLy then .VBlank else .AccessOAM }
      else { p with clocks := c }
  | .VBlank =>
      if 456 ≤ c then
        let newLy := (p.ly + 1) % 256
        if 154 ≤ newLy then
          { p with clocks := c - 456, ly := 0, mode := .AccessOAM }
        else { p with clocks := c - 456, ly := newLy }
      else { p with clocks := c }

/-- A mid-frame state in VBlank, reached from construction by ticking
through 143 full scanlines (204 + 80 + 172 dot-clocks each, starting in
the reset HBlank) and one further HBlank budget: `ly = 144`,
`mode = VBlank`, `clocks = 0`. -/
def midFrameVBlank : PPU :=
  PPU.new.ticks ((List.replicate 143 [204, 80, 172]).flatten ++ [204])

/-- The STAT register byte as the specification describes it: bits 3–6
are the stored interrupt-enable bits, bit 2 the LYC==LY match flag, and
bits 1–0 the encoding of the current mode. -/
def statByteSpec (p : PPU) : Nat :=
  (p.stat &&& 0b01111000) ||| (p.stat &&& 0b00000100) ||| p.mode.statBits

set_option maxRecDepth 10000

/-- Any single `run` call leaves every field other than `clocks`, `ly`
and `mode` untouched: the match arms of `PPU::run` only assign those
three fields. -/
theorem run_preserves_non_timing (p : PPU) (d : Nat) :
    (p.run d).vram = p.vram ∧ (p.run d).bgp = p.bgp ∧ (p.run d).stat = p.stat ∧
    (p.run d).scy = p.scy ∧ (p.run d).scx = p.scx ∧
    (p.run d).control = p.control := by
  cases p with
  | mk vram mode bgp clocks ly stat scy scx control =>
    cases mode <;> simp only [PPU.run] <;> split <;> (try split) <;> simp

/-- A sequence of `run` calls never changes the VRAM buffer. -/
theorem ticks_preserve_vram (p : PPU) (ds : List Nat) :
    (p.ticks ds).vram = p.vram := by
  induction ds generalizing p with
  | nil => rfl
  | cons d ds ih =>
      show ((p.run d).ticks ds).vram = p.vram
      rw [ih (p.run d), (run_preserves_non_timing p d).1]

/-- Claim C1: `tick(delta)` first adds `delta` to `clocks` (u32 addition)
and then steps the current phase exactly as the specification words it —
OamScan subtracts 80 into PixelTransfer at 80; PixelTransfer subtracts
172 into HBlank at 172; HBlank subtracts 204, increments `ly` with 8-bit
wrap, then picks VBlank iff the new `ly ≥ 144`; VBlank subtracts 456,
increments `ly`, and at `ly ≥ 154` resets `ly` to 0 and enters OamScan.
The `ly` update happens before the mode decision that depends on it, for
every starting state and every positive delta. -/
theorem tick_single_step_matches_spec (p : PPU) (delta : Nat)
    (_h : 0 < delta) : p.run delta = runSpecStep p delta := by
  cases p with
  | mk vram mode bgp clocks ly stat scy scx control => cases mode <;> rfl

/-- Witness for C1 at the concrete state after construction and
`delta = 456`. -/
theorem tick_single_step_matches_spec_witness :
    0 < 456 ∧ PPU.new.run 456 = runSpecStep PPU.new 456 :=
  ⟨by decide, tick_single_step_matches_spec PPU.new 456 (by decide)⟩

/-- Claim C2 fails on the code: `PPU::run` never touches `stat`, so after
the very first HBlank-to-OamScan transition (one `tick(204)` from
construction) the mode is OamScan (STAT encoding `10` = 2) while the
low two bits of `stat` still read 0 (the HBlank encoding). -/
theorem stat_mode_bits_stale_after_tick :
    (PPU.new.run 204).mode = Mode.AccessOAM ∧
      ¬ ((PPU.new.run 204).stat &&& 3 = ((PPU.new.run 204).mode).statBits) := by
  decide

/-- Claim C3 fails on the code: ticking from construction through 143
scanlines plus one HBlank budget reaches `mode = VBlank`, `ly = 144`;
the reachable `write_byte(0xFF40, 0x80)` (LCD-enable 0→1) then resets
`ly` to 0 but leaves `mode = VBlank` (the LCDC path only ORs mode bits
into `stat` and never assigns `mode`), so `mode == VBlank ↔ ly ≥ 144`
is violated in a reachable state. -/
theorem lcdc_toggle_breaks_vblank_ly_invariant :
    ((midFrameVBlank.mode, midFrameVBlank.ly) = (Mode.VBlank, 144)) ∧
      (midFrameVBlank.write_byte 0xff40 0x80).map (fun s => (s.mode, s.ly)) =
        some (Mode.VBlank, 0) := by
  decide

/-- Counterexample to claim C4 as stated: from the freshly constructed
state (which satisfies the invariants), `tick(500)` — a delta exceeding
one phase budget — leaves `clocks = 296` in OamScan, not below that
phase's budget of 80, because `PPU::run` processes at most one phase
transition per call (there is no loop). -/
theorem tick_large_delta_exceeds_budget :
    PPUInvariant PPU.new ∧ 0 < 500 ∧
      ¬ ((PPU.new.run 500).clocks < ((PPU.new.run 500).mode).budget) := by
  decide

/-- Claim C4 amended: for every starting state satisfying the invariants
and every positive delta that does not exceed 80 (the smallest phase
budget), `clocks` is strictly below the budget of the then-current phase
immediately after `tick(delta)` returns; at most one phase transition is
processed per call. -/
theorem tick_small_delta_under_budget (p : PPU) (d : Nat)
    (hinv : PPUInvariant p) (h0 : 0 < d) (h80 : d ≤ 80) :
    (p.run d).clocks < ((p.run d).mode).budget := by
  obtain ⟨-, -, -, hc⟩ := hinv
  cases p with
  | mk vram mode bgp clocks ly stat scy scx control =>
    cases mode <;>
      simp only [Mode.budget] at hc <;>
      simp only [PPU.run] <;>
      rw [Nat.mod_eq_of_lt (lt_of_lt_of_le (show clocks + d < 536 by omega)
        (by norm_num [U32]))] <;>
      split <;> (try split) <;> simp [Mode.budget] <;> omega

/-- Witness for the amended C4 at the freshly constructed state and
`delta = 4`. -/
theorem tick_small_delta_under_budget_witness :
    PPUInvariant PPU.new ∧ 0 < 4 ∧ 4 ≤ 80 ∧
      (PPU.new.run 4).clocks < ((PPU.new.run 4).mode).budget :=
  ⟨by decide, by decide, by decide,
    tick_small_delta_under_budget PPU.new 4 (by decide) (by decide) (by decide)⟩

/-- Claim C5: for every address in 0x8000–0x9FFF and every value, while
the mode is PixelTransfer a read returns 0xFF without consulting the
buffer and a write leaves the whole state unchanged; in every other mode
both operations pass through to the buffer (index = address masked by
0x1FFF), the write changing nothing but that buffer cell. -/
theorem vram_gate_blocks_during_pixel_transfer (p : PPU) (addr v : Nat)
    (h : 0x8000 ≤ addr ∧ addr ≤ 0x9fff) :
    (p.mode = .AccessVRAM →
        p.read_byte addr = 0xff ∧ p.write_byte addr v = some p) ∧
    (p.mode ≠ .AccessVRAM →
        p.read_byte addr = p.vram (addr &&& (VRAM_SIZE - 1)) ∧
        p.write_byte addr v = some { p with vram := fun i =>
            if i = (addr &&& (VRAM_SIZE - 1)) then v else p.vram i }) := by
  constructor <;> intro hm <;> simp [PPU.read_byte, PPU.write_byte, h, hm]

/-- Witness for C5 at the freshly constructed state, address 0x8000 and
value 0xAB. -/
theorem vram_gate_blocks_during_pixel_transfer_witness :
    (0x8000 ≤ (0x8000 : Nat) ∧ (0x8000 : Nat) ≤ 0x9fff) ∧
    ((PPU.new.mode = Mode.AccessVRAM →
        PPU.new.read_byte 0x8000 = 0xff ∧
          PPU.new.write_byte 0x8000 0xAB = some PPU.new) ∧
      (PPU.new.mode ≠ Mode.AccessVRAM →
        PPU.new.read_byte 0x8000 = PPU.new.vram (0x8000 &&& (VRAM_SIZE - 1)) ∧
          PPU.new.write_byte 0x8000 0xAB = some { PPU.new with
            vram := fun i =>
              if i = (0x8000 &&& (VRAM_SIZE - 1)) then 0xAB
              else PPU.new.vram i })) :=
  ⟨by decide, vram_gate_blocks_during_pixel_transfer PPU.new 0x8000 0xAB
    (by decide)⟩

/-- Claim C6: a write to `a1` in 0x8000–0x9FFF performed outside
PixelTransfer, followed by any ticks that leave the final mode outside
PixelTransfer and no intervening writes, is observed by a read from any
`a2` in the window with the same low 13 address bits — in particular the
round trip with `a1 = a2` and aliasing across the masked window. -/
theorem write_then_read_roundtrip (p p' : PPU) (a1 a2 v : Nat)
    (ds : List Nat)
    (h1 : 0x8000 ≤ a1 ∧ a1 ≤ 0x9fff) (h2 : 0x8000 ≤ a2 ∧ a2 ≤ 0x9fff)
    (halias : a1 &&& (VRAM_SIZE - 1) = a2 &&& (VRAM_SIZE - 1))
    (hmode : p.mode ≠ .AccessVRAM)
    (hw : p.write_byte a1 v = some p')
    (hmode' : (p'.ticks ds).mode ≠ .AccessVRAM) :
    (p'.ticks ds).read_byte a2 = v := by
  simp [PPU.write_byte, h1, hmode] at hw
  subst hw
  rw [halias] at hmode' ⊢
  simp [PPU.read_byte, h2, hmode', ticks_preserve_vram]

/-- Witness for C6: write 0xAB to 0x8000 at reset, tick 4 dot-clocks,
read 0x8000 back. -/
theorem write_then_read_roundtrip_witness :
    PPU.new.mode ≠ Mode.AccessVRAM ∧
      ((((PPU.new.write_byte 0x8000 0xAB).getD PPU.new).ticks
          [4]).read_byte 0x8000 = 0xAB) :=
  ⟨by decide, write_then_read_roundtrip PPU.new
    ((PPU.new.write_byte 0x8000 0xAB).getD PPU.new) 0x8000 0x8000 0xAB [4]
    (by decide) (by decide) rfl (by decide) rfl (by decide)⟩

/-- Claim C7 fails on the code: at the freshly constructed state the
write of 0x80 to LCDC flips the LCD-enable bit from clear to set and
resets `ly` and `clocks`, but the mode stays HBlank — the code ORs a
mode encoding into `stat` and never assigns `mode` — where the claim
requires the mode to become OamScan. -/
theorem lcdc_enable_does_not_set_mode :
    (PPU.new.write_byte 0xff40 0x80).map
        (fun s => (s.mode, s.ly, s.clocks, s.control)) =
      some (Mode.HBlank, 0, 0, 0x80) := by
  decide

/-- Counterexample to claim C8 as stated: a write to address 0x0000,
which is neither in the VRAM window nor a mapped register, hits the
`unreachable!` arm — the call aborts instead of returning normally. -/
theorem write_unmapped_address_panics :
    PPU.new.write_byte 0x0000 0x00 = none := rfl

/-- Claim C8 amended: `write_byte` returns normally exactly when the
address is in 0x8000–0x9FFF or is one of the mapped registers 0xFF40,
0xFF42, 0xFF43, 0xFF44, 0xFF47 (the 0xFF44 write being ignored); for
every other address it aborts through `unreachable!` rather than
silently ignoring the write. -/
theorem write_byte_succeeds_iff_mapped (p : PPU) (addr v : Nat) :
    (p.write_byte addr v).isSome = true ↔
      ((0x8000 ≤ addr ∧ addr ≤ 0x9fff) ∨ addr = 0xff40 ∨ addr = 0xff42 ∨
        addr = 0xff43 ∨ addr = 0xff44 ∨ addr = 0xff47) := by
  simp only [PPU.write_byte]
  repeat' split
  all_goals simp_all

/-- Counterexample to claim C9 as stated: at the freshly constructed
state the composed STAT byte (enable bits, LYC flag, mode code) is 0x00,
but `read_byte(0xFF41)` returns 0xFF. -/
theorem read_stat_not_composed_byte :
    ¬ (PPU.new.read_byte 0xff41 = statByteSpec PPU.new) := by decide

/-- Claim C9 amended: for every state, `read_byte(0xFF41)` returns 0xFF —
the STAT register is absent from the read path and the address falls
through to the default arm for unmapped addresses. -/
theorem read_stat_returns_ff (p : PPU) : p.read_byte 0xff41 = 0xff := rfl

/-- Claim C10: for every state and every delta, `tick` mutates only
`clocks`, `ly` and `mode`; the VRAM buffer, `scy`, `scx`, `bgp`,
`control` and `stat` are all left unchanged (in particular ticking never
renders into or otherwise alters VRAM). -/
theorem tick_touches_only_timing_fields (p : PPU) (d : Nat) :
    (p.run d).vram = p.vram ∧ (p.run d).scy = p.scy ∧
      (p.run d).scx = p.scx ∧ (p.run d).bgp = p.bgp ∧
      (p.run d).control = p.control ∧ (p.run d).stat = p.stat := by
  obtain ⟨h1, h2, h3, h4, h5, h6⟩ := run_preserves_non_timing p d
  exact ⟨h1, h4, h5, h2, h6, h3⟩

end GB
